import Mathlib

/-!
Verification of the cursor-pagination and transactional-erasure core of the
social-media-service-go repository, as a shallow embedding in Lean 4.

The embedding follows the Go source:
  - internal/app/post/repo/repository.go      (GetPostsSortedByComments)
  - migration/sql/000002_create_posts_comments_tables.up.sql
                                              (posts_with_comment_count view)
  - internal/app/account/app/service.go       (GDPRDeleteAccount)
  - the account repository (BeginTx, ListUserPostImagePathsTx, DeleteTx)
  - pkg/storage/image.go                      (ImageStorageService.DeleteImage)

Timestamps are modelled as integers (Unix nanoseconds); machine integers do
not overflow in any code path modelled here, so Int is used directly.
Relational rows are lists of records; a transaction is modelled as a snapshot
of the database that is either committed (installed) or rolled back
(discarded).  Store-infrastructure failures (connection loss, commit failure)
are not modelled; the failure modes the claims are about (blob-store delete
failures, ill-typed queries) are modelled explicitly.
-/

/-- A row of the posts table, mirroring the Go Post struct
(internal/app/post/domain.go): id, caption, image_path, image_url,
creator_id, creator_name, created_at, updated_at, deleted_at, and the
derived comment_count column produced by the posts_with_comment_count view. -/
structure Post where
  id : Int
  caption : String
  imagePath : String
  imageURL : String
  creatorId : Int
  creatorName : String
  createdAt : Int
  updatedAt : Int
  deletedAt : Option Int
  commentCount : Int := 0
  deriving Repr, DecidableEq

/-- A row of the comments table (internal/app/comment/domain.go). -/
structure Comment where
  id : Int
  content : String
  postId : Int
  creatorId : Int
  creatorName : String
  createdAt : Int
  updatedAt : Int
  deletedAt : Option Int
  deriving Repr, DecidableEq

/-- A row of the accounts table (internal/app/account/domain.go). -/
structure Account where
  id : Int
  name : String
  email : String
  password : String
  createdAt : Int
  updatedAt : Int
  deletedAt : Option Int
  deriving Repr, DecidableEq

/-- The relational store: the three tables the two subsystems touch. -/
structure DB where
  accounts : List Account
  posts : List Post
  comments : List Comment
  deriving Repr, DecidableEq

/-- Number of live (non-deleted) comments of a post: the aggregate computed
by the grouped subquery of the posts_with_comment_count view
(SELECT post_id, COUNT(*) FROM comments WHERE deleted_at IS NULL GROUP BY post_id). -/
def liveCommentCount (comments : List Comment) (pid : Int) : Int :=
  ((comments.filter (fun c => c.postId == pid && c.deletedAt == none)).length : Int)

/-- The posts_with_comment_count view
(migration/sql/000002_create_posts_comments_tables.up.sql): live posts
LEFT JOINed with the per-post live-comment counts, with COALESCE(count, 0),
so a post with no live comments keeps one row with comment_count = 0. -/
def postsWithCommentCount (db : DB) : List Post :=
  (db.posts.filter (fun p => p.deletedAt == none)).map
    (fun p => { p with commentCount := liveCommentCount db.comments p.id })

/-- The ORDER BY comment_count DESC, created_at DESC comparison: row a may
be placed before row b when its composite sort key is at least that of b. -/
def orderByKey (a b : Post) : Bool :=
  decide (b.commentCount < a.commentCount) ||
    (a.commentCount == b.commentCount && decide (b.createdAt ≤ a.createdAt))

/-- Insert a row into a list already sorted by orderByKey. -/
def insertDesc (x : Post) : List Post → List Post
  | [] => [x]
  | y :: ys => if orderByKey x y then x :: y :: ys else y :: insertDesc x ys

/-- Sort rows by comment_count DESC, created_at DESC (the ORDER BY of
GetPostsSortedByComments).  SQL leaves the relative order of rows with fully
equal sort keys unspecified; this model fixes one such order. -/
def sortRows : List Post → List Post
  | [] => []
  | x :: xs => insertDesc x (sortRows xs)

/-- The row sequence the query paginates: the view rows, re-filtered by
deleted_at IS NULL (the WHERE clause of GetPostsSortedByComments, redundant
with the filter already inside the view) and ordered by the composite key. -/
def sortedLiveRows (db : DB) : List Post :=
  sortRows ((postsWithCommentCount db).filter (fun p => p.deletedAt == none))

/-- Limit normalization at the top of GetPostsSortedByComments
(repository.go line 283): if limit <= 0 || limit > 100 then limit = 20.
Note that values above 100 also become 20; nothing is clamped to 100. -/
def normalizeLimit (limit : Int) : Int :=
  if limit ≤ 0 ∨ 100 < limit then 20 else limit

/-- LIMIT limit+1: fetch one extra row to detect whether more pages exist. -/
def fetchRows (db : DB) (lim : Int) : List Post :=
  (sortedLiveRows db).take (lim + 1).toNat

/-- The pagination token emitted by GetPostsSortedByComments
(repository.go line 332): fmt.Sprintf of the comment count of a row.
The created_at component of the sort key is not part of the token. -/
def emittedCursorToken (p : Post) : String :=
  toString p.commentCount

/-- Token built from the last row of a page
(posts[len(posts)-1].CommentCount, guarded by len(posts) > 0). -/
def lastRowToken (posts : List Post) : String :=
  match posts.getLast? with
  | some p => emittedCursorToken p
  | none => ""

/-- The response struct of the Go listing (post.PostListResponse):
posts, an opaque cursor string (empty means no token), and hasMore. -/
structure PostListResponse where
  posts : List Post
  cursor : String
  hasMore : Bool
  deriving Repr, DecidableEq

/-- Errors surfaced by the repository layer.  The store rejecting a query
(including the ill-typed cursored query) surfaces as storeError; there is no
distinct invalid-cursor classification anywhere in the listing path. -/
inductive RepoError where
  | storeError
  deriving Repr, DecidableEq

/-- Page assembly from the fetched rows (repository.go lines 325-339):
hasMore when more than limit rows returned, trim to limit, and emit the
token of the last retained row when hasMore. -/
def buildResponse (fetched : List Post) (lim : Int) : PostListResponse :=
  let hasMore : Bool := decide (lim < (fetched.length : Int))
  let posts := if hasMore then fetched.take lim.toNat else fetched
  let nextCursor : String :=
    if hasMore ∧ 0 < posts.length then lastRowToken posts else ""
  { posts := posts, cursor := nextCursor, hasMore := hasMore }

/-- Types a Postgres query parameter can resolve to in the queries modelled
here. -/
inductive PgType where
  | bigint
  | timestamptz
  deriving Repr, DecidableEq

/-- Postgres resolves one type per parameter from all of its uses in the
query text; resolution fails when two uses disagree. -/
def resolveParamUses : List PgType → Option PgType
  | [] => none
  | [t] => some t
  | t :: t2 :: rest => if t = t2 then resolveParamUses (t2 :: rest) else none

/-- Uses of parameter two in the cursored query of GetPostsSortedByComments.
The code appends only the cursor string to args before the boundary clause
(repository.go line 296), so the next placeholder number is 2 and the LIMIT
argument (limit+1, a bigint) is bound as parameter two; but the boundary
clause already uses parameter two as the created_at comparand
(created_at < the second parameter, a timestamptz).  The two uses disagree. -/
def sortedQueryParam2Uses : List PgType :=
  [PgType.timestamptz, PgType.bigint]

/-- The cursored query of GetPostsSortedByComments cannot be prepared: its
second parameter has no consistent type, so the store rejects the query
whenever a non-empty cursor adds the boundary clause. -/
theorem sortedQueryParam2Unresolvable :
    resolveParamUses sortedQueryParam2Uses = none := rfl

/-- GetPostsSortedByComments (repository.go lines 282-340).  With an empty
cursor the query is well-typed and returns the first page.  With a non-empty
cursor the added boundary clause makes parameter two ill-typed (see
sortedQueryParam2Unresolvable), the store rejects the query, and the
function propagates the store error. -/
def getPostsSortedByComments (db : DB) (cursor : String) (limit : Int) :
    Except RepoError PostListResponse :=
  let lim := normalizeLimit limit
  if cursor = "" then
    Except.ok (buildResponse (fetchRows db lim) lim)
  else
    Except.error RepoError.storeError

/-- The image-deleter capability the account service depends on
(ImageDeleter interface in internal/app/account/app/service.go):
DeleteImage(imagePath) error.  Modelled as a function from the path to a
success-or-error outcome. -/
def ImageDeleter : Type := String → Except String Unit

/-- ListUserPostImagePathsTx of the account repository: inside the supplied
transaction, SELECT image_path FROM posts WHERE creator_id = userID AND
deleted_at IS NULL, skipping empty paths (the Go loop appends a scanned path
only when path != "").  The transaction argument is the snapshot held by the
eraser; the function opens no transaction of its own. -/
def listUserPostImagePathsTx (tx : DB) (userID : Int) : List String :=
  ((tx.posts.filter (fun p => p.creatorId == userID && p.deletedAt == none)).map
    (fun p => p.imagePath)).filter (fun path => path != "")

/-- DeleteTx of the account repository: DELETE FROM accounts WHERE id = id,
inside the supplied transaction.  The schema cascades the delete to the
posts of the account and onward to comments (ON DELETE CASCADE on
posts.creator_id, comments.post_id and comments.creator_id).  DeleteTx does
not inspect the number of affected rows: deleting an absent account is not
an error (unlike the non-transactional Delete, which returns ErrNoRows when
zero rows are affected). -/
def deleteAccountCascade (tx : DB) (id : Int) : DB :=
  let deadPostIds := (tx.posts.filter (fun p => p.creatorId == id)).map (fun p => p.id)
  { accounts := tx.accounts.filter (fun a => a.id != id)
    posts := tx.posts.filter (fun p => p.creatorId != id)
    comments := tx.comments.filter
      (fun c => c.creatorId != id && !(deadPostIds.contains c.postId)) }

/-- The blob-deletion loop of GDPRDeleteAccount: attempt the paths in order
and stop at the first failure.  Returns the paths whose deletion was
attempted (in order) and the first failing path, if any. -/
def runImageDeletes (del : ImageDeleter) : List String → List String × Option String
  | [] => ([], none)
  | p :: ps =>
    match del p with
    | Except.error _ => ([p], some p)
    | Except.ok _ =>
        (p :: (runImageDeletes del ps).1, (runImageDeletes del ps).2)

/-- The only failure mode of the erasure orchestration modelled here: a blob
deletion failed for the named path (the Go error is
"failed to delete image '<path>': ...").  Transaction begin, the collection
query, DeleteTx and commit are infallible in this model. -/
inductive EraseError where
  | deleteImageFailed (path : String)
  deriving Repr, DecidableEq

/-- Observable outcome of one GDPRDeleteAccount call: the relational state
visible after the call (the snapshot is installed on commit and discarded on
rollback), the paths whose blob-store deletion was invoked, whether the
transaction committed, and the returned error if any. -/
structure EraseOutcome where
  db : DB
  imageDeletesAttempted : List String
  committed : Bool
  result : Except EraseError Unit

/-- GDPRDeleteAccount (internal/app/account/app/service.go lines 125-161):
begin a transaction, collect the image paths of the posts of the account
inside it, delete each blob synchronously, then delete the account row
(cascading) and commit; on any blob-deletion failure, stop the loop, roll
back, and return an error naming the failing path. -/
def GDPRDeleteAccount (del : ImageDeleter) (db : DB) (id : Int) : EraseOutcome :=
  let imagePaths := listUserPostImagePathsTx db id
  match (runImageDeletes del imagePaths).2 with
  | some badPath =>
      { db := db
        imageDeletesAttempted := (runImageDeletes del imagePaths).1
        committed := false
        result := Except.error (EraseError.deleteImageFailed badPath) }
  | none =>
      { db := deleteAccountCascade db id
        imageDeletesAttempted := (runImageDeletes del imagePaths).1
        committed := true
        result := Except.ok () }

/-- Suffix of a key beginning at its last dot, empty when there is no dot
(filepath.Ext restricted to keys without path separators, which is what the
upload path produces). -/
def extOf (s : String) : String :=
  let rev := s.toList.reverse
  let tail := rev.takeWhile (fun c => c != '.')
  if tail.length == rev.length then "" else String.mk ('.' :: tail.reverse)

/-- strings.TrimSuffix(imagePath, filepath.Ext(imagePath)): the key without
its extension. -/
def trimExt (s : String) : String :=
  s.dropRight (extOf s).length

/-- The legacy original-variant keys DeleteImage also attempts
(pkg/storage/image.go lines 169-175). -/
def legacyOrigCandidates (imagePath : String) : List String :=
  let base := trimExt imagePath
  [base ++ "_orig.png", base ++ "_orig.jpg", base ++ "_orig.jpeg", base ++ "_orig.bmp"]

/-- ImageStorageService.DeleteImage (pkg/storage/image.go lines 163-180):
delete the processed key, then every legacy original-variant key, assigning
each returned error to the blank identifier, and return nil.  Every outcome
of the underlying store calls is discarded. -/
def imageStorageDeleteImage (s3del : String → Except String Unit)
    (imagePath : String) : Except String Unit :=
  let _ := s3del imagePath
  let _ := (legacyOrigCandidates imagePath).map s3del
  Except.ok ()

/-! Concrete fixtures used by the evaluation theorems below. -/

/-- Comment number n on post pid, live, by account 9. -/
def mkComment (n : Nat) (pid : Int) : Comment :=
  { id := (n : Int), content := "c", postId := pid, creatorId := 9,
    creatorName := "u", createdAt := (n : Int), updatedAt := (n : Int),
    deletedAt := none }

/-- Post A of the tie-break scenario of the spec: five live comments,
created_at 10. -/
def postA : Post :=
  { id := 1, caption := "A", imagePath := "a.jpg", imageURL := "ua",
    creatorId := 7, creatorName := "n", createdAt := 10, updatedAt := 10,
    deletedAt := none }

/-- Post B of the tie-break scenario: five live comments, created_at 9. -/
def postB : Post :=
  { id := 2, caption := "B", imagePath := "b.jpg", imageURL := "ub",
    creatorId := 7, creatorName := "n", createdAt := 9, updatedAt := 9,
    deletedAt := none }

/-- Post C of the tie-break scenario: three live comments, created_at 20. -/
def postC : Post :=
  { id := 3, caption := "C", imagePath := "c.jpg", imageURL := "uc",
    creatorId := 7, creatorName := "n", createdAt := 20, updatedAt := 20,
    deletedAt := none }

/-- The tie-break database of the spec: A(comment_count=5, t=10),
B(comment_count=5, t=9), C(comment_count=3, t=20). -/
def dbC1 : DB :=
  { accounts := []
    posts := [postA, postB, postC]
    comments :=
      (List.range 5).map (fun n => mkComment n 1) ++
      (List.range 5).map (fun n => mkComment (5 + n) 2) ++
      (List.range 3).map (fun n => mkComment (10 + n) 3) }

/-- Post A as produced by the view: comment_count 5. -/
def viewA : Post := { postA with commentCount := 5 }

/-- Post B as produced by the view: comment_count 5. -/
def viewB : Post := { postB with commentCount := 5 }

/-- Post C as produced by the view: comment_count 3. -/
def viewC : Post := { postC with commentCount := 3 }

/-- A numbered live post with no comments, used for the limit fixtures. -/
def mkNumPost (n : Nat) : Post :=
  { id := (n : Int), caption := "", imagePath := "p.jpg", imageURL := "",
    creatorId := 1, creatorName := "", createdAt := (n : Int),
    updatedAt := 0, deletedAt := none }

/-- Twenty-one live posts with distinct creation times and no comments. -/
def db21 : DB :=
  { accounts := [], posts := (List.range 21).map mkNumPost, comments := [] }

/-- An account owning two live posts with images, for the erasure fixtures. -/
def exAccount : Account :=
  { id := 1, name := "e", email := "e@x", password := "h",
    createdAt := 0, updatedAt := 0, deletedAt := none }

/-- First owned post of the erasure fixture. -/
def exPost1 : Post :=
  { id := 11, caption := "p1", imagePath := "img1.jpg", imageURL := "u1",
    creatorId := 1, creatorName := "e", createdAt := 1, updatedAt := 1,
    deletedAt := none }

/-- Second owned post of the erasure fixture. -/
def exPost2 : Post :=
  { id := 12, caption := "p2", imagePath := "img2.jpg", imageURL := "u2",
    creatorId := 1, creatorName := "e", createdAt := 2, updatedAt := 2,
    deletedAt := none }

/-- Erasure fixture: one account owning two posts with blobs. -/
def exDb4 : DB :=
  { accounts := [exAccount], posts := [exPost1, exPost2], comments := [] }

/-- A blob deleter that always succeeds. -/
def okDel : ImageDeleter := fun _ => Except.ok ()

/-- A blob deleter that fails exactly on the second blob of the fixture. -/
def del2 : ImageDeleter :=
  fun p => if p = "img2.jpg" then Except.error "s3 failure" else Except.ok ()

/-- A live post owned by account 1 whose image_path is the empty string. -/
def emptyPathPost : Post :=
  { id := 21, caption := "q", imagePath := "", imageURL := "",
    creatorId := 1, creatorName := "e", createdAt := 3, updatedAt := 3,
    deletedAt := none }

/-- Fixture for the resource collector: a live owned post with an empty key. -/
def cexDb8 : DB :=
  { accounts := [exAccount], posts := [emptyPathPost], comments := [] }

/-- Fixture with a single live post and no comments. -/
def soloDb : DB :=
  { accounts := [], posts := [exPost1], comments := [] }

/-! Helper lemmas about the sort and the deletion loop. -/

/-- Membership in an insertion step. -/
theorem mem_insertDesc (x a : Post) (l : List Post) :
    a ∈ insertDesc x l ↔ a = x ∨ a ∈ l := by
  induction l with
  | nil => simp [insertDesc]
  | cons y ys ih =>
      by_cases h : orderByKey x y = true
      · simp [insertDesc, h]
      · simp only [insertDesc, if_neg h, List.mem_cons, ih]
        tauto

/-- Sorting preserves membership. -/
theorem mem_sortRows (a : Post) (l : List Post) :
    a ∈ sortRows l ↔ a ∈ l := by
  induction l with
  | nil => simp [sortRows]
  | cons x xs ih => simp [sortRows, mem_insertDesc, ih]

/-- When the deletion loop reports a failing path, the attempted paths are
exactly the collected list up to and including that path: the loop stops
there and the remaining paths are untouched. -/
theorem runImageDeletes_fail_split (del : ImageDeleter) :
    ∀ (ps : List String) (bad : String),
      (runImageDeletes del ps).2 = some bad →
      ∃ pre rest, ps = pre ++ bad :: rest ∧
        (runImageDeletes del ps).1 = pre ++ [bad] := by
  intro ps
  induction ps with
  | nil => intro bad h; simp [runImageDeletes] at h
  | cons p ps ih =>
      intro bad h
      cases hdp : del p with
      | error e =>
          simp only [runImageDeletes, hdp] at h ⊢
          rcases Option.some_inj.mp h with rfl
          exact ⟨[], ps, rfl, rfl⟩
      | ok u =>
          simp only [runImageDeletes, hdp] at h ⊢
          rcases ih bad h with ⟨pre, rest, hsplit, hatt⟩
          exact ⟨p :: pre, rest, by simp [hsplit], by simp [hatt]⟩

/-- A deleter that never fails makes the loop attempt every path and report
no failure. -/
theorem runImageDeletes_all_ok (del : ImageDeleter)
    (hdel : ∀ p, del p = Except.ok ()) :
    ∀ ps, runImageDeletes del ps = (ps, none) := by
  intro ps
  induction ps with
  | nil => rfl
  | cons p ps ih => simp [runImageDeletes, hdel p, ih]

/-- The normalized limit is always at least one. -/
theorem normalizeLimit_pos (limit : Int) : 1 ≤ normalizeLimit limit := by
  unfold normalizeLimit
  split <;> omega

/-! Claim theorems. -/

/-- C1: on the tie-break scenario of the spec (A(5,10), B(5,9), C(3,20),
page size 2), the first page is [A, B] with hasMore and the token "5", but
the follow-up call with that token fails at the store instead of returning
[C]: the boundary clause binds only one of its two parameters (the LIMIT
value stands in for the created_at bound), so pagination cannot continue
past the first page and C is never delivered through the cursor. -/
theorem c1_tiebreak_pagination_breaks :
    getPostsSortedByComments dbC1 "" 2 =
      Except.ok { posts := [viewA, viewB], cursor := "5", hasMore := true } ∧
    getPostsSortedByComments dbC1 "5" 2 = Except.error RepoError.storeError :=
  ⟨rfl, rfl⟩

/-- C2: the emitted pagination token is only the comment count, so two rows
with sort keys (5, t=10) and (5, t=9) produce the same token "5"; the
encoding is not injective on sort-key tuples and no decoder can reproduce
the created_at component from it. -/
theorem c2_cursor_token_not_roundtrippable :
    emittedCursorToken viewA = emittedCursorToken viewB ∧
    viewA.createdAt ≠ viewB.createdAt ∧
    emittedCursorToken viewA = "5" :=
  ⟨rfl, by decide, rfl⟩

/-- C3: after a first successful erasure of account 1, running
GDPRDeleteAccount again returns success: the collection query finds no
posts, DeleteTx deletes zero rows without checking the affected-row count,
and the transaction commits, leaving the state unchanged — a silent success
with no effect, not a distinct not-found failure. -/
theorem c3_second_erasure_silently_succeeds :
    (GDPRDeleteAccount okDel exDb4 1).result = Except.ok () ∧
    (GDPRDeleteAccount okDel (GDPRDeleteAccount okDel exDb4 1).db 1).result =
      Except.ok () ∧
    (GDPRDeleteAccount okDel (GDPRDeleteAccount okDel exDb4 1).db 1).committed =
      true ∧
    (GDPRDeleteAccount okDel (GDPRDeleteAccount okDel exDb4 1).db 1).db =
      (GDPRDeleteAccount okDel exDb4 1).db :=
  ⟨rfl, rfl, rfl, rfl⟩

/-- C4: whenever some blob deletion fails during GDPRDeleteAccount, the call
returns an error naming the first failing key, the relational state is
unchanged (the transaction was rolled back, never committed), and the
deletion loop stopped at the failing key: the attempted deletions are
exactly the collected keys up to and including it. -/
theorem c4_blob_failure_rolls_back (del : ImageDeleter) (db : DB) (id : Int)
    (bad : String)
    (h : (runImageDeletes del (listUserPostImagePathsTx db id)).2 = some bad) :
    (GDPRDeleteAccount del db id).result =
      Except.error (EraseError.deleteImageFailed bad) ∧
    (GDPRDeleteAccount del db id).db = db ∧
    (GDPRDeleteAccount del db id).committed = false ∧
    ∃ pre rest, listUserPostImagePathsTx db id = pre ++ bad :: rest ∧
      (GDPRDeleteAccount del db id).imageDeletesAttempted = pre ++ [bad] := by
  rcases runImageDeletes_fail_split del (listUserPostImagePathsTx db id) bad h
    with ⟨pre, rest, h1, h2⟩
  refine ⟨?_, ?_, ?_, pre, rest, h1, ?_⟩ <;> simp [GDPRDeleteAccount, h, h2]

/-- C4 witness: account 1 of the two-blob fixture with a deleter failing on
the second blob. -/
theorem c4_blob_failure_rolls_back_witness :
    (runImageDeletes del2 (listUserPostImagePathsTx exDb4 1)).2 =
      some "img2.jpg" ∧
    ((GDPRDeleteAccount del2 exDb4 1).result =
        Except.error (EraseError.deleteImageFailed "img2.jpg") ∧
      (GDPRDeleteAccount del2 exDb4 1).db = exDb4 ∧
      (GDPRDeleteAccount del2 exDb4 1).committed = false ∧
      ∃ pre rest, listUserPostImagePathsTx exDb4 1 = pre ++ "img2.jpg" :: rest ∧
        (GDPRDeleteAccount del2 exDb4 1).imageDeletesAttempted =
          pre ++ ["img2.jpg"]) :=
  ⟨rfl, c4_blob_failure_rolls_back del2 exDb4 1 "img2.jpg" rfl⟩

/-- C9: ImageStorageService.DeleteImage returns success no matter what the
underlying store calls return, and consequently an eraser composed with it
always reaches the commit branch: the blob-deletion-failure rollback in
GDPRDeleteAccount is unreachable with this concrete store. -/
theorem c9_delete_image_always_ok (s3del : String → Except String Unit)
    (path : String) (db : DB) (id : Int) :
    imageStorageDeleteImage s3del path = Except.ok () ∧
    (GDPRDeleteAccount (imageStorageDeleteImage s3del) db id).result =
      Except.ok () ∧
    (GDPRDeleteAccount (imageStorageDeleteImage s3del) db id).committed =
      true := by
  have h := runImageDeletes_all_ok (imageStorageDeleteImage s3del)
    (fun _ => rfl) (listUserPostImagePathsTx db id)
  exact ⟨rfl, by simp [GDPRDeleteAccount, h], by simp [GDPRDeleteAccount, h]⟩

/-- C5 counterexample: the empty cursor string is not rejected with any
invalid-cursor condition — it is treated as the absence of a cursor and the
first page is returned successfully; and a garbage token is not rejected
before querying either: the query is issued and fails at the store. -/
theorem c5_empty_cursor_not_rejected :
    getPostsSortedByComments soloDb "" 5 =
      Except.ok { posts := [{ exPost1 with commentCount := 0 }], cursor := "",
                  hasMore := false } ∧
    getPostsSortedByComments soloDb "zzz-not-a-cursor" 5 =
      Except.error RepoError.storeError :=
  ⟨rfl, rfl⟩

/-- C5 amended: the listing path performs no cursor validation of its own.
The call fails exactly when a non-empty cursor is supplied, and then with a
store-level error, never a distinct invalid-cursor bad-request; the empty
string is treated as no cursor and succeeds.  (The model is a total
function, so no panic is possible on any token.) -/
theorem c5_store_error_iff_cursor_nonempty (db : DB) (cursor : String)
    (limit : Int) :
    (∃ e, getPostsSortedByComments db cursor limit = Except.error e) ↔
      cursor ≠ "" := by
  constructor
  · rintro ⟨e, he⟩ hc
    simp [getPostsSortedByComments, hc] at he
  · intro hc
    exact ⟨RepoError.storeError, by simp [getPostsSortedByComments, hc]⟩

/-- C6 counterexample: a requested limit of 101 is not clamped to the
maximum 100; it falls back to the default 20.  On twenty-one live posts the
call returns twenty rows and hasMore, whereas a limit clamped to 100 would
return all twenty-one rows with hasMore false. -/
theorem c6_limit_101_not_clamped_to_100 :
    normalizeLimit 101 = 20 ∧
    normalizeLimit 101 ≠ 100 ∧
    (getPostsSortedByComments db21 "" 101).map
      (fun r => (r.posts.length, r.hasMore)) = Except.ok (20, true) :=
  ⟨rfl, by decide, rfl⟩

/-- C6 amended: requested limits at most 0 or above 100 both fall back to
the default page size 20 (nothing is clamped to 100), and the listing then
behaves exactly as with limit 20. -/
theorem c6_out_of_range_limit_defaults (limit : Int)
    (h : limit ≤ 0 ∨ 100 < limit) :
    normalizeLimit limit = 20 ∧
    ∀ (db : DB) (cursor : String),
      getPostsSortedByComments db cursor limit =
        getPostsSortedByComments db cursor 20 := by
  have hn : normalizeLimit limit = 20 := by unfold normalizeLimit; rw [if_pos h]
  refine ⟨hn, fun db cursor => ?_⟩
  unfold getPostsSortedByComments
  rw [hn]
  rfl

/-- C6 witness: limit 101. -/
theorem c6_out_of_range_limit_defaults_witness :
    ((101 : Int) ≤ 0 ∨ (100 : Int) < 101) ∧
    (normalizeLimit 101 = 20 ∧
      ∀ (db : DB) (cursor : String),
        getPostsSortedByComments db cursor 101 =
          getPostsSortedByComments db cursor 20) :=
  ⟨Or.inr (by decide), c6_out_of_range_limit_defaults 101 (Or.inr (by decide))⟩

/-- C8 counterexample: a live post owned by account 1 whose image_path is
the empty string is skipped by the collector (the Go loop keeps a scanned
path only when path != ""), so not every live owned post contributes its
storage key. -/
theorem c8_empty_image_path_skipped :
    listUserPostImagePathsTx cexDb8 1 = [] ∧
    emptyPathPost ∈ cexDb8.posts ∧
    emptyPathPost.creatorId = 1 ∧
    emptyPathPost.deletedAt = none :=
  ⟨rfl, by decide, rfl, rfl⟩

/-- C8 amended: run against the transaction snapshot supplied by the eraser,
the collector returns exactly the non-empty storage keys of the posts owned
by the account that are not soft-deleted. -/
theorem c8_collector_characterization (tx : DB) (uid : Int) (key : String) :
    key ∈ listUserPostImagePathsTx tx uid ↔
      key ≠ "" ∧ ∃ p, p ∈ tx.posts ∧ p.creatorId = uid ∧ p.deletedAt = none ∧
        p.imagePath = key := by
  unfold listUserPostImagePathsTx
  simp only [List.mem_filter, List.mem_map, bne_iff_ne, ne_eq,
    Bool.and_eq_true, beq_iff_eq]
  constructor
  · rintro ⟨⟨p, ⟨hp, hcid, hdel⟩, rfl⟩, hne⟩
    exact ⟨hne, p, hp, hcid, hdel, rfl⟩
  · rintro ⟨hne, p, hp, hcid, hdel, rfl⟩
    exact ⟨⟨p, ⟨hp, hcid, hdel⟩, rfl⟩, hne⟩

/-- C10: a live post with zero live comments is not dropped by the
comment-count aggregation: it appears in the ordered row sequence the
listing paginates, as a view row with comment_count = 0. -/
theorem c10_zero_comment_post_listed (db : DB) (p : Post)
    (hp : p ∈ db.posts) (hlive : p.deletedAt = none)
    (hzero : liveCommentCount db.comments p.id = 0) :
    { p with commentCount := 0 } ∈ sortedLiveRows db := by
  unfold sortedLiveRows
  rw [mem_sortRows]
  refine List.mem_filter.mpr ⟨?_, by simp [hlive]⟩
  refine List.mem_map.mpr ⟨p, List.mem_filter.mpr ⟨hp, by simp [hlive]⟩, ?_⟩
  rw [hzero]

/-- C10 witness: the single-post fixture with no comments. -/
theorem c10_zero_comment_post_listed_witness :
    exPost1 ∈ soloDb.posts ∧ exPost1.deletedAt = none ∧
    liveCommentCount soloDb.comments exPost1.id = 0 ∧
    { exPost1 with commentCount := 0 } ∈ sortedLiveRows soloDb :=
  ⟨by decide, rfl, rfl,
    c10_zero_comment_post_listed soloDb exPost1 (by decide) rfl rfl⟩

/-- C7 counterexample: with a cursor boundary present (token "3", limit 2,
the tie-break fixture) the planner does not fetch limit+1 rows and trim —
the cursored query is rejected by the store and the call returns an error,
so the fetch-and-trim contract does not hold for every cursor boundary. -/
theorem c7_cursored_fetch_fails :
    getPostsSortedByComments dbC1 "3" 2 = Except.error RepoError.storeError :=
  rfl

/-- C7 amended, for the only succeeding path (the empty cursor): the planner
fetches effective-limit+1 rows; when more than the effective limit L are
available it returns exactly the first L rows, hasMore = true, and the token
of the last retained row; otherwise it returns all rows, hasMore = false,
and no token — including the exact-fit case (exactly L rows) and the empty
case. -/
theorem c7_first_page_shape (db : DB) (limit : Int) :
    getPostsSortedByComments db "" limit =
      Except.ok
        (if (normalizeLimit limit).toNat < (sortedLiveRows db).length then
          { posts := (sortedLiveRows db).take (normalizeLimit limit).toNat,
            cursor := lastRowToken
              ((sortedLiveRows db).take (normalizeLimit limit).toNat),
            hasMore := true }
        else
          { posts := sortedLiveRows db, cursor := "", hasMore := false }) := by
  have hL := normalizeLimit_pos limit
  show Except.ok (buildResponse (fetchRows db (normalizeLimit limit))
      (normalizeLimit limit)) = _
  set L := normalizeLimit limit with hLdef
  set rows := sortedLiveRows db with hrowsdef
  congr 1
  have htn : (L + 1).toNat = L.toNat + 1 := by omega
  simp only [buildResponse, fetchRows, htn]
  by_cases hc : L.toNat < rows.length
  · have hlen : (rows.take (L.toNat + 1)).length = L.toNat + 1 := by
      rw [List.length_take, Nat.min_eq_left (by omega)]
    have hmb : decide (L < ((rows.take (L.toNat + 1)).length : Int)) = true := by
      rw [hlen]; exact decide_eq_true (by omega)
    have htt : (rows.take (L.toNat + 1)).take L.toNat = rows.take L.toNat := by
      rw [List.take_take, Nat.min_eq_left (by omega)]
    have hpos : 0 < (List.take L.toNat rows).length := by
      rw [List.length_take]; omega
    rw [if_pos hc]
    simp only [hmb, if_true, htt]
    rw [if_pos ⟨trivial, hpos⟩]
  · have hle : rows.length ≤ L.toNat := Nat.le_of_not_lt hc
    have hall : rows.take (L.toNat + 1) = rows :=
      List.take_of_length_le (by omega)
    have hmb : decide (L < (rows.length : Int)) = false :=
      decide_eq_false (by omega)
    rw [if_neg hc]
    simp [hall, hmb]
